import Mathlib

/-!
Verification of the house_price_scraper repository.

The Python source (scraper.py, update_sheets.py, src/nz_house_prices/sites/)
is shallowly embedded: pure functions become Lean functions over `String`,
`List` and `ℚ`; Python floats are modelled as rationals (every literal the
claims touch is exactly representable and the IEEE results coincide on them);
fallible code returns `Except PyErr`; the Selenium driver is an abstract
record of capabilities; `re.findall` is an abstract parameter.
-/

set_option allowUnsafeReducibility true

attribute [local semireducible] Rat.mul Rat.add Rat.sub Rat.inv Rat.div

namespace HPS

/-- Models a raised Python exception.  `valueError` corresponds to
`ValueError` (the only exception class the embedded code distinguishes,
via `except ValueError`); every other exception is `exception`. -/
inductive PyErr where
  | valueError (msg : String)
  | exception (msg : String)
deriving DecidableEq, Repr

/-- The message carried by an exception, i.e. Python `str(e)`. -/
def PyErr.msg : PyErr → String
  | .valueError m => m
  | .exception m => m

/-- Does the character list `hay` begin with `needle`?  Helper for the
substring test below. -/
def charsStart : List Char → List Char → Bool
  | _, [] => true
  | [], _ :: _ => false
  | h :: ht, n :: nt => h == n && charsStart ht nt

/-- Does `hay` contain `needle` as a contiguous sublist?  Helper for
`strContains`. -/
def charsContain : List Char → List Char → Bool
  | [], needle => needle.isEmpty
  | h :: t, needle => charsStart (h :: t) needle || charsContain t needle

/-- Models the Python substring test `needle in hay`. -/
def strContains (hay needle : String) : Bool :=
  charsContain hay.toList needle.toList

/-- The ASCII whitespace characters CPython's `str.strip()` and `float()`
remove (space, tab, newline, carriage return, vertical tab, form feed).
Unicode whitespace beyond ASCII is outside the modelled character set. -/
def pyIsSpace (c : Char) : Bool :=
  c == ' ' || c == '\t' || c == '\n' || c == '\r' || c == '\x0b' || c == '\x0c'

/-- Models Python `str.strip()` on ASCII input (leading and trailing
whitespace removed). -/
def pyStrip (s : String) : String :=
  String.mk (((s.toList.dropWhile pyIsSpace).reverse.dropWhile pyIsSpace).reverse)

/-- Fuelled worker for `pyReplaceDel`: removes every left-to-right,
non-overlapping occurrence of `needle` from the character list.  The fuel
starts at the list length, which the recursion never exhausts. -/
def removeSubFuel (needle : List Char) : Nat → List Char → List Char
  | 0, hay => hay
  | _ + 1, [] => []
  | fuel + 1, h :: t =>
    if charsStart (h :: t) needle then
      removeSubFuel needle fuel ((h :: t).drop needle.length)
    else
      h :: removeSubFuel needle fuel t

/-- Models Python `s.replace(needle, "")`: deletes every left-to-right,
non-overlapping occurrence of `needle`. -/
def pyReplaceDel (s needle : String) : String :=
  if needle.isEmpty then s
  else String.mk (removeSubFuel needle.toList s.toList.length s.toList)

/-- Models Python truthiness of an `Optional[str]`: `None` and the empty
string are falsy, every other string truthy. -/
def pyTruthy : Option String → Bool
  | none => false
  | some s => !s.isEmpty

/-- Models Python truthiness of an `Optional[float]`: `None` and `0.0` are
falsy, every other number truthy. -/
def pyTruthyQ : Option ℚ → Bool
  | none => false
  | some v => v != 0

/-! ## Extraction Strategy Engine (scraper.py, class SelectorStrategy) -/

/-- One entry of the `SELECTOR_STRATEGIES` table: a selector strategy of one
of the four types dispatched on by `SelectorStrategy.apply_strategy`. -/
inductive Strategy where
  | css (selector : String)
  | xpath (selector : String)
  | text_pattern (pat : String)
  | regex_fallback (pat : String)
deriving DecidableEq, Repr

/-- The `"type"` field of a strategy dict, used to build extraction-method
tags such as `"midpoint:css"`. -/
def Strategy.typeName : Strategy → String
  | .css _ => "css"
  | .xpath _ => "xpath"
  | .text_pattern _ => "text_pattern"
  | .regex_fallback _ => "regex_fallback"

/-- The browsing-session capability consumed by the scraper (spec section 6):
`findCss`/`findXpath` model `driver.find_element(...).text` on the current
page, returning `.error` where Selenium would raise (element absent, stale
session, ...); `page_source` models `driver.page_source`. -/
structure Driver where
  findCss : String → Except PyErr String
  findXpath : String → Except PyErr String
  page_source : String

/-- The type of the abstracted `re.findall`: pattern and subject text to the
list of matches (first capture group, or the whole match when the pattern has
no group), in order of occurrence. -/
abbrev Findall := String → String → List String

/-- Models `SelectorStrategy.apply_strategy`: css/xpath strategies look up
one element and give its text, text_pattern/regex_fallback strategies run
`re.findall` over the full page source and give the first match; the
`try/except Exception: return None` turns every failure into `none`. -/
def apply_strategy (findall : Findall) (driver : Driver) : Strategy → Option String
  | .css sel => (driver.findCss sel).toOption
  | .xpath sel => (driver.findXpath sel).toOption
  | .text_pattern pat => (findall pat driver.page_source).head?
  | .regex_fallback pat => (findall pat driver.page_source).head?

/-- Models `SelectorStrategy.apply_cascading_strategies`: try strategies in
order, returning the first truthy (non-`None`, non-empty) result, `None` if
every strategy fails. -/
def apply_cascading_strategies (findall : Findall) (driver : Driver) :
    List Strategy → Option String
  | [] => none
  | s :: rest =>
    let result := apply_strategy findall driver s
    if pyTruthy result then result else apply_cascading_strategies findall driver rest

/-- Concrete driver for evaluation: every element lookup succeeds with the
fixed text, the page source is the given string. -/
def constDriver (text : String) (page : String) : Driver :=
  ⟨fun _ => .ok text, fun _ => .ok text, page⟩

/-- Concrete driver for evaluation: every element lookup raises. -/
def failDriver (page : String) : Driver :=
  ⟨fun _ => .error (.exception "no such element"), fun _ => .error (.exception "no such element"), page⟩

/-- Concrete `re.findall` stand-in that never matches. -/
def emptyFindall : Findall := fun _ _ => []

end HPS

namespace HPS

/-- C1: `apply_cascading_strategies` returns the result of the first strategy
in list order whose application is truthy (non-`None` and non-empty), and
`none` when every strategy fails; an empty-string result is skipped exactly
like `None`.  The right-hand side is the order-respecting first-success
characterization: `find?` scans `strategies` in list order for the first
truthy applied result. -/
theorem apply_cascading_strategies_first_truthy (findall : Findall) (driver : Driver)
    (strategies : List Strategy) :
    apply_cascading_strategies findall driver strategies =
      ((strategies.map (apply_strategy findall driver)).find? pyTruthy).join := by
  induction strategies with
  | nil => rfl
  | cons s rest ih =>
    simp only [apply_cascading_strategies, List.map_cons]
    cases h : pyTruthy (apply_strategy findall driver s) with
    | true =>
      rw [List.find?_cons_of_pos _ h]
      cases hr : apply_strategy findall driver s with
      | none => rw [hr] at h; simp [pyTruthy] at h
      | some t => simp [hr, Option.join]
    | false =>
      rw [List.find?_cons_of_neg _ (by simp [h])]
      simp [h, ih]

/-- C9: `apply_strategy` never raises (it is total with an `Option` result;
all driver and regex failures become `none`) and returns: for css/xpath, the
located element's text exactly when the lookup succeeds; for
text_pattern/regex_fallback, the first element of `re.findall` over the full
page source exactly when the match list is non-empty. -/
theorem apply_strategy_spec (findall : Findall) (driver : Driver) :
    (∀ sel t, apply_strategy findall driver (.css sel) = some t ↔ driver.findCss sel = .ok t)
    ∧ (∀ sel t, apply_strategy findall driver (.xpath sel) = some t ↔ driver.findXpath sel = .ok t)
    ∧ (∀ pat t, apply_strategy findall driver (.text_pattern pat) = some t ↔
        ∃ rest, findall pat driver.page_source = t :: rest)
    ∧ (∀ pat t, apply_strategy findall driver (.regex_fallback pat) = some t ↔
        ∃ rest, findall pat driver.page_source = t :: rest) := by
  refine ⟨fun sel t => ?_, fun sel t => ?_, fun pat t => ?_, fun pat t => ?_⟩
  · cases h : driver.findCss sel <;> simp [apply_strategy, h, Except.toOption]
  · cases h : driver.findXpath sel <;> simp [apply_strategy, h, Except.toOption]
  · cases h : findall pat driver.page_source <;> simp [apply_strategy, h]
  · cases h : findall pat driver.page_source <;> simp [apply_strategy, h]

/-- Witness for C9: a lookup that succeeds with the text "$1.8M" makes the
css strategy return it. -/
theorem apply_strategy_spec_witness :
    apply_strategy emptyFindall (constDriver "$1.8M" "") (.css "p") = some "$1.8M" :=
  ((apply_strategy_spec emptyFindall (constDriver "$1.8M" "")).1 "p" "$1.8M").mpr rfl

/-! ## Price Normalizer and Validator (scraper.py, class PriceValidator) -/

/-- The numeric value of a list of decimal digit characters. -/
def digitsToNat (ds : List Char) : Nat :=
  ds.foldl (fun n c => n * 10 + (c.toNat - '0'.toNat)) 0

/-- After a leading digit, consumes the remainder of a CPython digit part —
further digits, with a single underscore allowed between two digits
(`1_000`) — returning the digits collected (underscores dropped) and the
unconsumed rest. -/
def digitPartAux : List Char → List Char × List Char
  | [] => ([], [])
  | c :: rest =>
    if c.isDigit then
      let p := digitPartAux rest
      (c :: p.1, p.2)
    else if c == '_' then
      match rest with
      | d :: rest2 =>
        if d.isDigit then
          let p := digitPartAux rest2
          (d :: p.1, p.2)
        else ([], c :: rest)
      | [] => ([], [c])
    else ([], c :: rest)

/-- A CPython `digitpart`: `digit (["_"] digit)*`.  `none` when the input
does not begin with a digit; otherwise the digits (underscores dropped) and
the unconsumed rest. -/
def parseDigitPart : List Char → Option (List Char × List Char)
  | c :: rest =>
    if c.isDigit then
      let p := digitPartAux rest
      some (c :: p.1, p.2)
    else none
  | [] => none

/-- Parses the exponent part of a float literal (after the `e`/`E`): an
optional sign followed by a digit part, nothing else. -/
def parseExpPart (cs : List Char) : Option Int :=
  let p : Int × List Char :=
    match cs with
    | '+' :: t => (1, t)
    | '-' :: t => (-1, t)
    | t => (1, t)
  match parseDigitPart p.2 with
  | some (ds, []) => some (p.1 * (digitsToNat ds : Int))
  | _ => none

/-- The unsigned numeric part of a CPython float literal —
`digitpart ["." [digitpart]]` or `"." digitpart`, with an optional `e`/`E`
exponent whose digits form a digit part — as its exact rational value. -/
def parseMagnitude (cs : List Char) : Option ℚ :=
  let ipp : List Char × List Char :=
    match parseDigitPart cs with
    | some p => p
    | none => ([], cs)
  let fpp : List Char × List Char :=
    match ipp.2 with
    | '.' :: r =>
      match parseDigitPart r with
      | some p => p
      | none => ([], r)
    | r => ([], r)
  let hasDot : Bool := match ipp.2 with
    | '.' :: _ => true
    | _ => false
  let ip := ipp.1
  let fp := if hasDot then fpp.1 else []
  let rest := if hasDot then fpp.2 else ipp.2
  if ip.isEmpty && fp.isEmpty then none
  else
    let mant : ℚ := (digitsToNat ip : ℚ) + (digitsToNat fp : ℚ) / (10 : ℚ) ^ fp.length
    match rest with
    | [] => some mant
    | c :: t =>
      if c == 'e' || c == 'E' then (parseExpPart t).map (fun e => mant * (10 : ℚ) ^ e)
      else none

/-- Parses a finite float literal (optional sign, digit parts with
underscore separators, optional fraction and scientific exponent) to its
exact rational value; `none` for anything else.  The special forms
`inf`/`infinity`/`nan` are handled one level up, by `pyFloatVal`. -/
def pyFloatCore (cs : List Char) : Option ℚ :=
  let sp : ℚ × List Char :=
    match cs with
    | '+' :: t => (1, t)
    | '-' :: t => (-1, t)
    | t => (1, t)
  (parseMagnitude sp.2).map (sp.1 * ·)

/-- The exact value of a finite decimal literal, after stripping
surrounding whitespace the way `float` does; `none` when the string is not
a finite decimal literal (in particular on the special forms and on
non-numeric text). -/
def decimalValue (s : String) : Option ℚ :=
  pyFloatCore (pyStrip s).toList

/-- A CPython float value as the embedding represents it: an exact rational
for the finite case, plus the special values `float()` can produce from the
textual forms `inf`/`infinity`/`nan`.  Finite values follow the file's
exact-rational abstraction (no rounding, no overflow to infinity). -/
inductive PyFloat where
  | finite (q : ℚ)
  | inf
  | neginf
  | nan
deriving DecidableEq, Repr

/-- The finite payload of a `PyFloat`, when there is one. -/
def PyFloat.toRat? : PyFloat → Option ℚ
  | .finite q => some q
  | _ => none

/-- IEEE multiplication of a float by a positive finite constant (the 1e6
and 1e3 of the M/K suffix rule): infinities keep their sign, nan stays
nan. -/
def PyFloat.mulPos : PyFloat → ℚ → PyFloat
  | .finite q, c => .finite (q * c)
  | .inf, _ => .inf
  | .neginf, _ => .neginf
  | .nan, _ => .nan

/-- IEEE comparison `a <= v` for a rational literal `a`: true against
positive infinity, false against negative infinity and nan. -/
def PyFloat.leQ (a : ℚ) : PyFloat → Bool
  | .finite q => decide (a ≤ q)
  | .inf => true
  | .neginf => false
  | .nan => false

/-- IEEE comparison `v <= b` for a rational literal `b`: true for negative
infinity, false for positive infinity and nan. -/
def PyFloat.qLe : PyFloat → ℚ → Bool
  | .finite q, b => decide (q ≤ b)
  | .inf, _ => false
  | .neginf, _ => true
  | .nan, _ => false

/-- Models CPython `float(s)` on ASCII input: strip surrounding whitespace,
read an optional sign, accept the case-insensitive special forms
`inf`/`infinity`/`nan`, otherwise parse a decimal literal (underscore digit
separators included) to its exact rational value, raising `ValueError` on
everything else.  Non-ASCII decimal digits and non-ASCII whitespace, which
CPython also accepts, are outside the modelled character set. -/
def pyFloatVal (s : String) : Except PyErr PyFloat :=
  let cs := (pyStrip s).toList
  let sp : Bool × List Char :=
    match cs with
    | '+' :: t => (false, t)
    | '-' :: t => (true, t)
    | t => (false, t)
  let low := sp.2.map Char.toLower
  if low = "inf".toList ∨ low = "infinity".toList then
    .ok (if sp.1 then .neginf else .inf)
  else if low = "nan".toList then .ok .nan
  else
    match parseMagnitude sp.2 with
    | some q => .ok (.finite (if sp.1 then -q else q))
    | none => .error (.valueError ("could not convert string to float: '" ++ s ++ "'"))

/-- The finite restriction of `pyFloatVal`, used by the site-specific
formatters, whose stored prices the pipeline models as finite rationals
(a non-finite extracted price is outside that abstraction; none of the
formatter claims depend on such inputs). -/
def pyFloat (s : String) : Except PyErr ℚ :=
  match decimalValue s with
  | some q => .ok q
  | none => .error (.valueError ("could not convert string to float: '" ++ s ++ "'"))

/-- Python `s[:-1]`: the string without its final character. -/
def dropLastChar (s : String) : String := String.mk s.toList.dropLast

/-- Models `PriceValidator.convert_to_numeric`: reject the empty string,
remove `$` and `,` and surrounding whitespace, then dispatch on the
(case-insensitively uppercased) final character: `M` multiplies the rest by
1e6, `K` by 1e3, anything else parses the whole remainder with `float()` —
which can also yield the non-finite values `pyFloatVal` models. -/
def convert_to_numeric (price_text : String) : Except PyErr PyFloat :=
  if price_text.isEmpty then .error (.valueError "Empty price text")
  else
    let cleaned := pyStrip (pyReplaceDel (pyReplaceDel price_text "$") ",")
    match cleaned.toList.getLast? with
    | some c =>
      if c.toUpper == 'M' then (pyFloatVal (dropLastChar cleaned)).map (PyFloat.mulPos · 1000000)
      else if c.toUpper == 'K' then (pyFloatVal (dropLastChar cleaned)).map (PyFloat.mulPos · 1000)
      else pyFloatVal cleaned
    | none => pyFloatVal cleaned

/-- A character matched by the regex class `[\d,]`. -/
def isDigitOrComma (c : Char) : Bool := c.isDigit || c == ','

/-- Decides the first accepted price shape, the anchored regex
`\$?[\d,]+\.?\d*[MKmk]?` of `PriceValidator.price_patterns`.  The greedy
left-to-right scan is exact here because the character classes of adjacent
regex pieces are disjoint, so the regex has at most one way to match. -/
def matchStdPrice (cs : List Char) : Bool :=
  let cs0 := match cs with
    | '$' :: t => t
    | t => t
  let d1 := cs0.takeWhile isDigitOrComma
  let cs1 := cs0.dropWhile isDigitOrComma
  if d1.isEmpty then false
  else
    let cs2 := match cs1 with
      | '.' :: t => t
      | t => t
    let cs3 := cs2.dropWhile Char.isDigit
    let cs4 := match cs3 with
      | c :: t => if c == 'M' || c == 'K' || c == 'm' || c == 'k' then t else c :: t
      | [] => ([] : List Char)
    cs4.isEmpty

/-- Decides the second accepted price shape, the anchored regex
`\d+\.?\d*` of `PriceValidator.price_patterns`. -/
def matchNumeric (cs : List Char) : Bool :=
  let d1 := cs.takeWhile Char.isDigit
  let cs1 := cs.dropWhile Char.isDigit
  if d1.isEmpty then false
  else
    let cs2 := match cs1 with
      | '.' :: t => t
      | t => t
    (cs2.dropWhile Char.isDigit).isEmpty

/-- Models the whitelist test
`any(re.match(p, price_text.strip()) for p in self.price_patterns)`. -/
def price_patterns_match (s : String) : Bool :=
  matchStdPrice s.toList || matchNumeric s.toList

/-- Rounds a rational to the nearest integer, ties to even: the rounding
of CPython `format(x, ',.0f')`. -/
def roundHalfEven (q : ℚ) : ℤ :=
  let f := ⌊q⌋
  let r := q - (f : ℚ)
  if r < 1 / 2 then f
  else if 1 / 2 < r then f + 1
  else if f % 2 = 0 then f else f + 1

/-- Splits a character list into chunks of three (used for thousands
grouping, applied to the reversed digit string). -/
def chunk3 : List Char → List (List Char)
  | [] => []
  | [a] => [[a]]
  | [a, b] => [[a, b]]
  | a :: b :: c :: rest => [a, b, c] :: chunk3 rest

/-- Thousands grouping of a digit string with commas. -/
def commaGroup (digits : List Char) : String :=
  String.intercalate "," ((((chunk3 digits.reverse).map List.reverse).reverse).map String.mk)

/-- Models the Python f-string conversion `f"{q:,.0f}"`: round half to even
to an integer and insert thousands separators. -/
def pyFormatComma (q : ℚ) : String :=
  let n := roundHalfEven q
  let body := commaGroup (Nat.repr n.natAbs).toList
  if n < 0 then "-" ++ body else body

/-- The f-string conversion `f"{v:,.0f}"` on a float value: the comma
formatting for finite values, and the texts CPython produces for the
special values. -/
def pyFormatFloat : PyFloat → String
  | .finite q => pyFormatComma q
  | .inf => "inf"
  | .neginf => "-inf"
  | .nan => "nan"

/-- Result of price validation (dataclass `ValidationResult`). -/
structure ValidationResult where
  is_valid : Bool
  value : Option ℚ := none
  error_message : String := ""
deriving DecidableEq, Repr

/-- `PriceValidator.min_house_price` ($100k). -/
def min_house_price : ℚ := 100000

/-- `PriceValidator.max_house_price` ($50M). -/
def max_house_price : ℚ := 50000000

/-- Models `PriceValidator.validate_price`.  The input is `Option String`
so that the Python `None` (rejected by `if not price_text or not
isinstance(price_text, str)`) is representable; the unused `price_type`
argument is dropped.  `convert_to_numeric` only ever raises `ValueError`,
so the `except ValueError` clause catches every failure it can produce. -/
def validate_price (price_text : Option String) : ValidationResult :=
  match price_text with
  | none => ⟨false, none, "Empty or invalid price text"⟩
  | some t =>
    if t.isEmpty then ⟨false, none, "Empty or invalid price text"⟩
    else if !price_patterns_match (pyStrip t) then
      ⟨false, none, "Price format invalid: " ++ t⟩
    else
      match convert_to_numeric t with
      | .ok v =>
        if PyFloat.leQ min_house_price v && PyFloat.qLe v max_house_price then
          ⟨true, v.toRat?, ""⟩
        else ⟨false, none, "Price out of range: $" ++ pyFormatFloat v⟩
      | .error e => ⟨false, none, "Conversion error: " ++ e.msg⟩

/-- Models `PriceValidator.validate_price_relationships`: with fewer than
two present values trivially true, otherwise the present values must equal
their own ascending sort. -/
def validate_price_relationships (lower midpoint upper : Option ℚ) : Bool :=
  let prices := [lower, midpoint, upper].filterMap id
  if prices.length < 2 then true
  else prices == prices.mergeSort (fun a b => decide (a ≤ b))

/-- Written from the amended C3 sentence: strip the currency symbol and
thousand separators, apply the case-insensitive suffix rule (`M` ⇒ ×1e6,
`K` ⇒ ×1e3), and convert the remainder with Python `float()` — which
accepts decimal literals (underscore digit separators included) and the
special forms `inf`/`infinity`/`nan` — failing (`none`) exactly when
`float()` rejects it.  Compared against the code-derived
`convert_to_numeric` in the C3 theorem. -/
def spec_convert_to_numeric (text : String) : Option PyFloat :=
  let remainder := pyStrip (pyReplaceDel (pyReplaceDel text "$") ",")
  match remainder.toList.getLast? with
  | some c =>
    if c.toUpper == 'M' then
      ((pyFloatVal (dropLastChar remainder)).toOption).map (PyFloat.mulPos · 1000000)
    else if c.toUpper == 'K' then
      ((pyFloatVal (dropLastChar remainder)).toOption).map (PyFloat.mulPos · 1000)
    else (pyFloatVal remainder).toOption
  | none => (pyFloatVal remainder).toOption

theorem except_toOption_map {α β ε : Type} (f : α → β) (e : Except ε α) :
    (e.map f).toOption = e.toOption.map f := by
  cases e <;> rfl

theorem pyFloat_toOption (s : String) : (pyFloat s).toOption = decimalValue s := by
  unfold pyFloat
  cases h : decimalValue s <;> simp [h, Except.toOption]

/-- C3 counterexample to the claim as stated: the remainder "inf" is not a
decimal number — the decimal-literal parser rejects it — yet the program's
`convert_to_numeric` does not fail with a conversion error: CPython
`float("inf")` succeeds, so infinity is returned. -/
theorem convert_to_numeric_inf_counterexample :
    convert_to_numeric "inf" = .ok PyFloat.inf
    ∧ decimalValue "inf" = none :=
  ⟨rfl, rfl⟩

/-- C3 as amended: `convert_to_numeric` strips `$` and comma thousand
separators and applies the case-insensitive suffix rule (trailing `M`
multiplies by 1e6, trailing `K` by 1e3), and fails with a conversion error
exactly when the remainder is not accepted by Python `float()` — which
takes, besides decimal literals, underscore digit separators and the
case-insensitive special forms `inf`/`infinity`/`nan`, the latter
converting to non-finite values rather than failing.  In particular
`"$1.2M"` maps to 1200000 (the IEEE double computation
`float("1.2") * 1000000` also yields exactly 1200000.0), `"1_000"` to 1000,
and `"nan"` to nan without error. -/
theorem convert_to_numeric_amended_spec :
    (∀ t, (convert_to_numeric t).toOption = spec_convert_to_numeric t)
    ∧ convert_to_numeric "$1.2M" = .ok (.finite 1200000)
    ∧ convert_to_numeric "1_000" = .ok (.finite 1000)
    ∧ convert_to_numeric "nan" = .ok .nan := by
  refine ⟨?_, rfl, rfl, rfl⟩
  intro t
  by_cases ht : t.isEmpty
  · rw [String.isEmpty_iff] at ht
    subst ht
    rfl
  · simp only [convert_to_numeric, spec_convert_to_numeric, ht, if_false, Bool.false_eq_true]
    cases hl : (pyStrip (pyReplaceDel (pyReplaceDel t "$") ",")).toList.getLast? with
    | none => rfl
    | some c =>
      by_cases hM : (c.toUpper == 'M') = true
      · simp [hM, except_toOption_map]
      · by_cases hK : (c.toUpper == 'K') = true
        · simp [hM, hK, except_toOption_map]
        · simp [hM, hK]

/-- Helper shared by the C2 and C6 developments: a valid validation result
carries an in-range value. -/
theorem validate_price_valid_range (t : Option String)
    (h : (validate_price t).is_valid = true) :
    ∃ v, (validate_price t).value = some v
      ∧ min_house_price ≤ v ∧ v ≤ max_house_price := by
  match t with
  | none => simp [validate_price] at h
  | some s =>
    by_cases h1 : s.isEmpty
    · simp [validate_price, h1] at h
    · by_cases h2 : price_patterns_match (pyStrip s)
      · cases hc : convert_to_numeric s with
        | ok v =>
          cases v with
          | finite q =>
            by_cases h3 : (PyFloat.leQ min_house_price (.finite q)
                && PyFloat.qLe (.finite q) max_house_price) = true
            · have hb := h3
              simp only [PyFloat.leQ, PyFloat.qLe, Bool.and_eq_true,
                decide_eq_true_eq] at hb
              refine ⟨q, ?_, hb.1, hb.2⟩
              simp [validate_price, h1, h2, hc, h3, PyFloat.toRat?]
            · simp [validate_price, h1, h2, hc, h3] at h
          | inf => simp [validate_price, h1, h2, hc, PyFloat.leQ, PyFloat.qLe] at h
          | neginf => simp [validate_price, h1, h2, hc, PyFloat.leQ, PyFloat.qLe] at h
          | nan => simp [validate_price, h1, h2, hc, PyFloat.leQ, PyFloat.qLe] at h
        | error e => simp [validate_price, h1, h2, hc] at h
      · simp [validate_price, h1, h2] at h

/-- C2: a valid `validate_price` result always carries a value inside the
configured range [100000, 50000000]; `None` and the empty string are
rejected with the empty-input message, a string matching neither accepted
shape is rejected with the format message (in both cases without reaching
conversion); and the in-format but out-of-range input `"$50,000"` is
rejected with a message mentioning "out of range". -/
theorem validate_price_spec :
    (∀ t : Option String, (validate_price t).is_valid = true →
        ∃ v, (validate_price t).value = some v
          ∧ min_house_price ≤ v ∧ v ≤ max_house_price)
    ∧ validate_price none = ⟨false, none, "Empty or invalid price text"⟩
    ∧ validate_price (some "") = ⟨false, none, "Empty or invalid price text"⟩
    ∧ (∀ s : String, s.isEmpty = false → price_patterns_match (pyStrip s) = false →
        validate_price (some s) = ⟨false, none, "Price format invalid: " ++ s⟩)
    ∧ (validate_price (some "$50,000")).is_valid = false
    ∧ strContains (validate_price (some "$50,000")).error_message "out of range" = true := by
  refine ⟨validate_price_valid_range, rfl, rfl, ?_, by decide, by decide⟩
  intro s hs hp
  simp [validate_price, hs, hp]

/-- Witness for C2: "$500,000" validates with an in-range value, and a
wrong-currency string is rejected on format before conversion. -/
theorem validate_price_spec_witness :
    (∃ v, (validate_price (some "$500,000")).value = some v
      ∧ min_house_price ≤ v ∧ v ≤ max_house_price)
    ∧ validate_price (some "£123") = ⟨false, none, "Price format invalid: " ++ "£123"⟩ :=
  ⟨validate_price_spec.1 (some "$500,000") (by decide),
   validate_price_spec.2.2.2.1 "£123" (by decide) (by decide)⟩

/-! ## Resilience Layer (scraper.py, retry_with_backoff) -/

/-- The capped exponential delay `min(base_delay * backoff_factor ** attempt,
max_delay)` computed before the sleep that follows failed attempt number
`attempt` (0-based). -/
def backoffDelay (base maxDelay factor : ℚ) (attempt : Nat) : ℚ :=
  min (base * factor ^ attempt) maxDelay

/-- Worker for `retry_with_backoff`: `remaining` counts the loop iterations
left (initially `max_attempts`), `attempt` the 0-based attempt index.  On
failure with iterations left, the slept time `delay + jitter * delay` is
added to the accumulated sleep of the remaining attempts. -/
def retryGo {α : Type} (f : Nat → Except PyErr α) (jitter : Nat → ℚ)
    (base maxDelay factor : ℚ) : Nat → Nat → Except PyErr (Option α) × ℚ
  | 0, _ => (.ok none, 0)
  | remaining + 1, attempt =>
    match f attempt with
    | .ok v => (.ok (some v), 0)
    | .error e =>
      if remaining = 0 then (.error e, 0)
      else
        let d := backoffDelay base maxDelay factor attempt
        let r := retryGo f jitter base maxDelay factor remaining (attempt + 1)
        (r.1, d + jitter attempt * d + r.2)

/-- Models the decorator `retry_with_backoff(max_attempts, base_delay,
max_delay, backoff_factor)` applied to a function: `f n` is the outcome of
the wrapped call on 0-based attempt `n`, and `jitter n` models the
`random.uniform(0.1, 0.5)` draw used after a failed attempt `n`.  The result
pairs the outcome — `.error e` for the re-raised final exception, `.ok
(some v)` for a returned value, `.ok none` for the fall-through `return
None` (reachable only when `max_attempts = 0`) — with the cumulative time
slept.  The source's two `except` clauses have identical bodies, so every
exception type is handled by the single error case. -/
def retry_with_backoff {α : Type} (maxAttempts : Nat) (base maxDelay factor : ℚ)
    (jitter : Nat → ℚ) (f : Nat → Except PyErr α) : Except PyErr (Option α) × ℚ :=
  retryGo f jitter base maxDelay factor maxAttempts 0

theorem retryGo_succ_ok {α : Type} (f : Nat → Except PyErr α) (jitter : Nat → ℚ)
    (base maxD factor : ℚ) (remaining attempt : Nat) (v : α)
    (h : f attempt = .ok v) :
    retryGo f jitter base maxD factor (remaining + 1) attempt = (.ok (some v), 0) := by
  simp [retryGo, h]

theorem retryGo_succ_err {α : Type} (f : Nat → Except PyErr α) (jitter : Nat → ℚ)
    (base maxD factor : ℚ) (remaining attempt : Nat) (e : PyErr)
    (h : f attempt = .error e) (hr : remaining ≠ 0) :
    retryGo f jitter base maxD factor (remaining + 1) attempt =
      ((retryGo f jitter base maxD factor remaining (attempt + 1)).1,
        backoffDelay base maxD factor attempt
          + jitter attempt * backoffDelay base maxD factor attempt
          + (retryGo f jitter base maxD factor remaining (attempt + 1)).2) := by
  simp [retryGo, h, hr]

theorem retryGo_succ_last {α : Type} (f : Nat → Except PyErr α) (jitter : Nat → ℚ)
    (base maxD factor : ℚ) (attempt : Nat) (e : PyErr)
    (h : f attempt = .error e) :
    retryGo f jitter base maxD factor 1 attempt = (.error e, 0) := by
  simp [retryGo, h]

theorem retryGo_ok {α : Type} (f : Nat → Except PyErr α) (jitter : Nat → ℚ)
    (base maxD factor : ℚ) :
    ∀ (k remaining attempt : Nat) (v : α), k < remaining →
      (∀ i, i < k → ∃ e, f (attempt + i) = .error e) →
      f (attempt + k) = .ok v →
      retryGo f jitter base maxD factor remaining attempt =
        (.ok (some v), ∑ i ∈ Finset.range k,
          (1 + jitter (attempt + i)) * backoffDelay base maxD factor (attempt + i)) := by
  intro k
  induction k with
  | zero =>
    intro remaining attempt v hk _ hok
    cases remaining with
    | zero => omega
    | succ r =>
      rw [Nat.add_zero] at hok
      simp [retryGo_succ_ok f jitter base maxD factor r attempt v hok]
  | succ k ih =>
    intro remaining attempt v hk herr hok
    cases remaining with
    | zero => omega
    | succ r =>
      obtain ⟨e, he⟩ := herr 0 (Nat.succ_pos k)
      rw [Nat.add_zero] at he
      have hr : r ≠ 0 := by omega
      have ihr := ih r (attempt + 1) v (by omega)
        (fun i hi => by
          obtain ⟨e', he'⟩ := herr (i + 1) (by omega)
          exact ⟨e', by rw [← he']; congr 1; omega⟩)
        (by rw [← hok]; congr 1; omega)
      rw [retryGo_succ_err f jitter base maxD factor r attempt e he hr, ihr]
      simp only [Prod.mk.injEq]
      refine ⟨trivial, ?_⟩
      rw [Finset.sum_range_succ']
      have hsh : ∀ i : ℕ, attempt + 1 + i = attempt + (i + 1) := fun i => by omega
      simp only [hsh, Nat.add_zero]
      ring

theorem retryGo_err {α : Type} (f : Nat → Except PyErr α) (jitter : Nat → ℚ)
    (base maxD factor : ℚ) :
    ∀ (remaining attempt : Nat) (e : PyErr), 0 < remaining →
      (∀ i, i < remaining - 1 → ∃ e', f (attempt + i) = .error e') →
      f (attempt + (remaining - 1)) = .error e →
      retryGo f jitter base maxD factor remaining attempt =
        (.error e, ∑ i ∈ Finset.range (remaining - 1),
          (1 + jitter (attempt + i)) * backoffDelay base maxD factor (attempt + i)) := by
  intro remaining
  induction remaining with
  | zero => intro attempt e h; omega
  | succ r ih =>
    intro attempt e _ herr hlast
    by_cases hr : r = 0
    · subst hr
      rw [Nat.add_zero] at hlast
      simp [retryGo_succ_last f jitter base maxD factor attempt e hlast]
    · obtain ⟨s, rfl⟩ : ∃ s, r = s + 1 := ⟨r - 1, by omega⟩
      obtain ⟨e0, he0⟩ := herr 0 (by omega)
      rw [Nat.add_zero] at he0
      have ihr := ih (attempt + 1) e (by omega)
        (fun i hi => by
          obtain ⟨e', he'⟩ := herr (i + 1) (by omega)
          exact ⟨e', by rw [← he']; congr 1; omega⟩)
        (by rw [← hlast]; congr 1; omega)
      rw [retryGo_succ_err f jitter base maxD factor (s + 1) attempt e0 he0 hr, ihr]
      simp only [Prod.mk.injEq]
      refine ⟨trivial, ?_⟩
      rw [show s + 1 + 1 - 1 = s + 1 from rfl, show s + 1 - 1 = s from rfl]
      rw [Finset.sum_range_succ']
      have hsh : ∀ i : ℕ, attempt + 1 + i = attempt + (i + 1) := fun i => by omega
      simp only [hsh, Nat.add_zero]
      ring

/-- C7: (1) if the wrapped call fails on attempts 0..k-1 and succeeds on
attempt k < max_attempts, the decorator returns attempt k's value, having
slept exactly the sum over the failed attempts of `(1 + jitter_i) *
min(base_delay * backoff_factor ** i, max_delay)` (the claimed delay plus
jitter-times-delay); every exception is retried regardless of type.  (2) if
every attempt fails, the final attempt's exception is re-raised after the
same cumulative sleep over the first max_attempts - 1 failures.  (3) with
max_attempts = 3 and jitter drawn from [0.1, 0.5]: failing on attempts 1
and 2 (1-based) and succeeding on attempt 3 returns the attempt-3 result
with cumulative sleep at least `base_delay * (1 + backoff_factor)`,
whenever `0 ≤ base_delay`, `1 ≤ backoff_factor` and the first two delays
are not clipped by `max_delay`. -/
theorem retry_with_backoff_spec :
    (∀ {α : Type} (maxAttempts : Nat) (base maxD factor : ℚ) (jitter : Nat → ℚ)
        (f : Nat → Except PyErr α) (k : Nat) (v : α),
      k < maxAttempts → (∀ i, i < k → ∃ e, f i = .error e) → f k = .ok v →
      retry_with_backoff maxAttempts base maxD factor jitter f =
        (.ok (some v), ∑ i ∈ Finset.range k,
          (1 + jitter i) * backoffDelay base maxD factor i))
    ∧ (∀ {α : Type} (maxAttempts : Nat) (base maxD factor : ℚ) (jitter : Nat → ℚ)
        (f : Nat → Except PyErr α) (e : PyErr),
      0 < maxAttempts → (∀ i, i < maxAttempts - 1 → ∃ e', f i = .error e') →
      f (maxAttempts - 1) = .error e →
      retry_with_backoff maxAttempts base maxD factor jitter f =
        (.error e, ∑ i ∈ Finset.range (maxAttempts - 1),
          (1 + jitter i) * backoffDelay base maxD factor i))
    ∧ (∀ {α : Type} (base maxD factor : ℚ) (jitter : Nat → ℚ)
        (f : Nat → Except PyErr α) (e₀ e₁ : PyErr) (v : α),
      (∀ i, 1/10 ≤ jitter i ∧ jitter i ≤ 1/2) →
      0 ≤ base → 1 ≤ factor → base * factor ≤ maxD →
      f 0 = .error e₀ → f 1 = .error e₁ → f 2 = .ok v →
      (retry_with_backoff 3 base maxD factor jitter f).1 = .ok (some v)
      ∧ base * (1 + factor) ≤ (retry_with_backoff 3 base maxD factor jitter f).2) := by
  refine ⟨?_, ?_, ?_⟩
  · intro α maxAttempts base maxD factor jitter f k v hk herr hok
    have := retryGo_ok f jitter base maxD factor k maxAttempts 0 v hk
      (fun i hi => by simpa using herr i hi) (by simpa using hok)
    simpa [retry_with_backoff] using this
  · intro α maxAttempts base maxD factor jitter f e hpos herr hlast
    have := retryGo_err f jitter base maxD factor maxAttempts 0 e hpos
      (fun i hi => by simpa using herr i hi) (by simpa using hlast)
    simpa [retry_with_backoff] using this
  · intro α base maxD factor jitter f e₀ e₁ v hj hbase hfactor hclip h0 h1 h2
    have hsum := retryGo_ok f jitter base maxD factor 2 3 0 v (by omega)
      (fun i hi => by
        interval_cases i
        · exact ⟨e₀, by simpa using h0⟩
        · exact ⟨e₁, by simpa using h1⟩)
      (by simpa using h2)
    have hret : retry_with_backoff 3 base maxD factor jitter f =
        (.ok (some v), ∑ i ∈ Finset.range 2,
          (1 + jitter i) * backoffDelay base maxD factor i) := by
      simpa [retry_with_backoff] using hsum
    rw [hret]
    have hb : base ≤ maxD := le_trans (by nlinarith) hclip
    have hd0 : backoffDelay base maxD factor 0 = base := by
      simp [backoffDelay, min_eq_left, hb]
    have hd1 : backoffDelay base maxD factor 1 = base * factor := by
      simp [backoffDelay, min_eq_left, hclip]
    constructor
    · rfl
    · simp only [Finset.sum_range_succ, Finset.sum_range_zero, hd0, hd1]
      have hj0 := (hj 0).1
      have hj1 := (hj 1).1
      nlinarith [mul_nonneg hbase (le_trans (by norm_num : (0:ℚ) ≤ 1) hfactor)]

/-- Witness for C7: with defaults base_delay = 1, max_delay = 60,
backoff_factor = 2, constant jitter 1/4, failures on attempts 1 and 2 and
success with value 7 on attempt 3, the decorator returns 7 and sleeps at
least 1 * (1 + 2). -/
theorem retry_with_backoff_spec_witness :
    (retry_with_backoff 3 1 60 2 (fun _ => 1/4)
        (fun n => if n = 2 then .ok 7 else .error (.exception "boom"))).1 = .ok (some 7)
    ∧ (1 : ℚ) * (1 + 2) ≤ (retry_with_backoff 3 1 60 2 (fun _ => 1/4)
        (fun n => if n = 2 then .ok 7 else .error (.exception "boom"))).2 :=
  retry_with_backoff_spec.2.2 1 60 2 (fun _ => 1/4)
    (fun n => if n = 2 then .ok 7 else .error (.exception "boom"))
    (.exception "boom") (.exception "boom") 7
    (fun _ => by norm_num) (by norm_num) (by norm_num) (by norm_num) rfl rfl rfl

/-! ## ScrapingResult and the Aggregation Engine (update_sheets.py) -/

/-- The three-key price dict `{"lower", "midpoint", "upper"}` of a
`ScrapingResult`; `prices.get(k)` is field access. -/
structure Prices where
  lower : Option ℚ
  midpoint : Option ℚ
  upper : Option ℚ
deriving DecidableEq, Repr

/-- The dataclass `ScrapingResult` (scraper.py).  `execution_time` is wall
clock time and is not modelled. -/
structure ScrapingResult where
  site : String
  url : String
  success : Bool
  prices : Prices
  errors : List String
  extraction_method : String
deriving DecidableEq, Repr

/-- The distribution a single website's simulation draws from.  The 10,000
`numpy` draws themselves are random; the embedding records which
distribution `simulate_single_website` selects, which is the only
deterministic content of the function. -/
inductive SimSpec where
  | triangular (left mode right : ℚ)
  | uniform (lo hi : ℚ)
  | constant (v : ℚ)
deriving DecidableEq, Repr

/-- Models `simulate_single_website` (without the draw itself): 3 present
values give a triangular distribution on the sorted values with the
midpoint as mode (a degenerate span collapses to a constant), 2 give a
uniform distribution between them, 1 gives that constant, 0 raises
`ValueError`. -/
def simulate_single_website (lower midpoint upper : Option ℚ) : Except PyErr SimSpec :=
  match lower, midpoint, upper with
  | some l, some m, some u =>
    let lo := min l (min m u)
    let hi := max l (max m u)
    if lo = hi then .ok (.constant lo) else .ok (.triangular lo m hi)
  | some a, some b, none => .ok (.uniform (min a b) (max a b))
  | some a, none, some b => .ok (.uniform (min a b) (max a b))
  | none, some a, some b => .ok (.uniform (min a b) (max a b))
  | some a, none, none => .ok (.constant a)
  | none, some a, none => .ok (.constant a)
  | none, none, some a => .ok (.constant a)
  | none, none, none => .error (.valueError "Expected 1-3 price values, got 0")

/-- The midpoints of the successful non-propertyvalue.co.nz sites, in
result order: the `other_midpoints` list built inside
`simulate_all_websites`. -/
def otherMidpoints (results : List ScrapingResult) : List ℚ :=
  results.filterMap fun o =>
    if o.success = true ∧ o.site ≠ "propertyvalue.co.nz" then o.prices.midpoint else none

/-- The midpoint `simulate_all_websites` uses for result `r`: for a
successful propertyvalue.co.nz result with both bounds present and at least
one other midpoint available, the cross-site average clamped into
`[lower, upper]` exactly as the source writes it (inside stays, below
becomes `lower`, otherwise `upper`); in every other case the scraped
midpoint unchanged. -/
def websiteMidpoint (results : List ScrapingResult) (r : ScrapingResult) : Option ℚ :=
  if r.site = "propertyvalue.co.nz" then
    match r.prices.lower, r.prices.upper with
    | some l, some u =>
      match otherMidpoints results with
      | [] => r.prices.midpoint
      | m :: ms =>
        let a := (m :: ms).sum / ((m :: ms).length : ℚ)
        some (if l ≤ a ∧ a ≤ u then a else if a < l then l else u)
    | _, _ => r.prices.midpoint
  else r.prices.midpoint

/-- The contribution of one result to `all_samples`: skipped (`none`) when
the site failed or its simulation raises `ValueError` (`except ValueError:
continue`), otherwise the selected distribution. -/
def websiteSpec (results : List ScrapingResult) (r : ScrapingResult) : Option SimSpec :=
  if r.success = true then
    (simulate_single_website r.prices.lower (websiteMidpoint results r) r.prices.upper).toOption
  else none

/-- Models `simulate_all_websites` up to the random draws: the list of
per-site distributions in result order, or the raised `ValueError` when no
site could be simulated.  The two-stage median over the 10,000 draws
operates on randomness and is abstracted away; what the claims constrain is
which sites contribute and with which distribution, and that zero usable
sites raise instead of producing any value. -/
def simulate_all_websites (results : List ScrapingResult) : Except PyErr (List SimSpec) :=
  let specs := results.filterMap (websiteSpec results)
  if specs.isEmpty then .error (.valueError "No valid simulations could be run")
  else .ok specs

/-- C4: with zero usable sites — no successful result carries even one of
lower/midpoint/upper — the aggregation raises (the `ValueError` "No valid
simulations could be run", the failure the spec's taxonomy calls
`NoDataError`) instead of returning any default consensus value. -/
theorem simulate_all_websites_no_data (results : List ScrapingResult)
    (h : ∀ r ∈ results, r.success = true →
      r.prices.lower = none ∧ r.prices.midpoint = none ∧ r.prices.upper = none) :
    simulate_all_websites results =
      .error (.valueError "No valid simulations could be run") := by
  have hspec : ∀ r ∈ results, websiteSpec results r = none := by
    intro r hr
    unfold websiteSpec
    by_cases hs : r.success = true
    · obtain ⟨hl, hm, hu⟩ := h r hr hs
      have hmid : websiteMidpoint results r = none := by
        unfold websiteMidpoint
        by_cases hpv : r.site = "propertyvalue.co.nz" <;>
          simp [hpv, hl, hm]
      simp [hs, hl, hu, hmid, simulate_single_website, Except.toOption]
    · simp [hs]
  have hnil : results.filterMap (websiteSpec results) = [] := by
    rw [List.filterMap_eq_nil_iff]
    exact hspec
  simp [simulate_all_websites, hnil]

/-- Witness for C4: one failed site and one successful site with no price
values raise the no-data error. -/
theorem simulate_all_websites_no_data_witness :
    simulate_all_websites
        [⟨"homes.co.nz", "u1", false, ⟨some 1000000, some 1100000, some 1200000⟩, ["boom"], ""⟩,
         ⟨"qv.co.nz", "u2", true, ⟨none, none, none⟩, [], ""⟩] =
      .error (.valueError "No valid simulations could be run") :=
  simulate_all_websites_no_data _ (by
    intro r hr hs
    simp only [List.mem_cons, List.mem_singleton] at hr
    rcases hr with rfl | rfl | h
    · simp at hs
    · exact ⟨rfl, rfl, rfl⟩
    · simp at h)

/-- C5: a successful propertyvalue.co.nz result with both bounds present
(and `lower ≤ upper`), aggregated together with at least one other
successful site carrying a midpoint, gets as midpoint the arithmetic mean
`a` of the other sites' midpoints when `a` lies inside `[lower, upper]`,
`lower` when `a` falls below, `upper` when it falls above — and is then
simulated as the 3-value case: the triangular distribution on
`(lower, midpoint, upper)`, degenerating to a constant when
`lower = upper`. -/
theorem pv_midpoint_estimated_triangular
    (results : List ScrapingResult) (r : ScrapingResult) (l u m : ℚ) (ms : List ℚ) (a : ℚ)
    (hsite : r.site = "propertyvalue.co.nz") (hsucc : r.success = true)
    (hl : r.prices.lower = some l) (hu : r.prices.upper = some u) (hlu : l ≤ u)
    (hom : otherMidpoints results = m :: ms)
    (ha : a = (m :: ms).sum / ((m :: ms).length : ℚ)) :
    websiteMidpoint results r =
      some (if l ≤ a ∧ a ≤ u then a else if a < l then l else u)
    ∧ websiteSpec results r =
      some (if l = u then SimSpec.constant l
            else SimSpec.triangular l (if l ≤ a ∧ a ≤ u then a else if a < l then l else u) u) := by
  subst ha
  set a := (m :: ms).sum / ((m :: ms).length : ℚ) with ha
  set midv := (if l ≤ a ∧ a ≤ u then a else if a < l then l else u) with hmidv
  have hmid : websiteMidpoint results r = some midv := by
    unfold websiteMidpoint
    simp [hsite, hl, hu, hom, hmidv, ha]
  have hb1 : l ≤ midv := by
    rw [hmidv]
    split_ifs with h1 h2
    · exact h1.1
    · exact le_refl l
    · exact hlu
  have hb2 : midv ≤ u := by
    rw [hmidv]
    split_ifs with h1 h2
    · exact h1.2
    · exact hlu
    · exact le_refl u
  refine ⟨hmid, ?_⟩
  unfold websiteSpec
  rw [if_pos hsucc, hmid, hl, hu]
  have hlo : min l (min midv u) = l := by
    rw [min_eq_left hb2, min_eq_left hb1]
  have hhi : max l (max midv u) = u := by
    rw [max_eq_right hb2, max_eq_right hlu]
  by_cases heq : l = u
  · subst heq
    have hm2 : midv = l := le_antisymm hb2 hb1
    rw [hm2]
    simp [simulate_single_website, Except.toOption]
  · simp [simulate_single_website, hlo, hhi, heq, Except.toOption]

/-- Witness for C5: propertyvalue.co.nz with bounds 900000/1100000 next to
a homes.co.nz midpoint of 1000000 receives the in-bounds mean 1000000 and a
triangular simulation. -/
theorem pv_midpoint_estimated_triangular_witness :
    websiteMidpoint
        [⟨"homes.co.nz", "u2", true, ⟨none, some 1000000, none⟩, [], ""⟩,
         ⟨"propertyvalue.co.nz", "u1", true, ⟨some 900000, none, some 1100000⟩, [], ""⟩]
        ⟨"propertyvalue.co.nz", "u1", true, ⟨some 900000, none, some 1100000⟩, [], ""⟩ =
      some 1000000
    ∧ websiteSpec
        [⟨"homes.co.nz", "u2", true, ⟨none, some 1000000, none⟩, [], ""⟩,
         ⟨"propertyvalue.co.nz", "u1", true, ⟨some 900000, none, some 1100000⟩, [], ""⟩]
        ⟨"propertyvalue.co.nz", "u1", true, ⟨some 900000, none, some 1100000⟩, [], ""⟩ =
      some (SimSpec.triangular 900000 1000000 1100000) := by
  have h := pv_midpoint_estimated_triangular
    [⟨"homes.co.nz", "u2", true, ⟨none, some 1000000, none⟩, [], ""⟩,
     ⟨"propertyvalue.co.nz", "u1", true, ⟨some 900000, none, some 1100000⟩, [], ""⟩]
    ⟨"propertyvalue.co.nz", "u1", true, ⟨some 900000, none, some 1100000⟩, [], ""⟩
    900000 1100000 1000000 [] 1000000 rfl rfl rfl rfl (by norm_num)
    (by decide) (by norm_num)
  refine ⟨?_, ?_⟩
  · rw [h.1, if_pos (by norm_num)]
  · rw [h.2, if_neg (by norm_num), if_pos (by norm_num)]

/-! ## Address Resolver (src/nz_house_prices/sites/oneroof.py) -/

/-- The dataclass `SearchResult` (sites/base.py); `extra_info` is dropped
(always defaulted in the embedded code paths). -/
structure SearchResult where
  address : String
  url : String
  confidence : ℚ
  site : String
deriving DecidableEq, Repr

/-- Models the tail of `OneRoofSite.search_property`: the Selenium
autocomplete enumeration and best-match scoring supply the candidate
`SearchResult`s (at most one per query round in the source); the method
returns them sorted by confidence, highest first
(`sorted(results, key=lambda x: x.confidence, reverse=True)`, a stable
descending sort). -/
def search_property (candidates : List SearchResult) : List SearchResult :=
  candidates.mergeSort (fun a b => decide (b.confidence ≤ a.confidence))

/-- Models `OneRoofSite.get_property_url`: the top search result's URL when
its confidence exceeds 0.5, otherwise `None` (also when the search returns
nothing). -/
def get_property_url (candidates : List SearchResult) : Option String :=
  match search_property candidates with
  | [] => none
  | top :: _ => if 1 / 2 < top.confidence then some top.url else none

/-- C8: `get_property_url` returns `none` on an empty search, and otherwise
there is a top-ranked result — a member of the candidate set whose
confidence is maximal — such that the function returns its URL exactly when
its confidence is strictly greater than 0.5 and `none` otherwise. -/
theorem get_property_url_spec (candidates : List SearchResult) :
    (candidates = [] → get_property_url candidates = none)
    ∧ (candidates ≠ [] → ∃ top,
        top ∈ candidates
        ∧ (∀ s ∈ candidates, s.confidence ≤ top.confidence)
        ∧ get_property_url candidates =
            (if 1 / 2 < top.confidence then some top.url else none)) := by
  constructor
  · intro h
    subst h
    simp [get_property_url, search_property]
  · intro h
    have hperm : List.Perm (search_property candidates) candidates :=
      List.mergeSort_perm candidates _
    have hsorted : (search_property candidates).Pairwise
        (fun a b => (decide (b.confidence ≤ a.confidence)) = true) := by
      apply List.sorted_mergeSort
      · intro a b c hab hbc
        simp only [decide_eq_true_eq] at *
        exact le_trans hbc hab
      · intro a b
        simp only [Bool.or_eq_true, decide_eq_true_eq]
        exact le_total b.confidence a.confidence
    cases hs : search_property candidates with
    | nil =>
      have h2 : List.Perm ([] : List SearchResult) candidates := hs ▸ hperm
      exact absurd (List.Perm.nil_eq h2).symm h
    | cons top rest =>
      refine ⟨top, ?_, ?_, ?_⟩
      · exact hperm.mem_iff.mp (hs ▸ List.mem_cons_self top rest)
      · intro s hsmem
        have : s ∈ top :: rest := hs ▸ hperm.symm.mem_iff.mp hsmem
        rcases List.mem_cons.mp this with rfl | htail
        · exact le_refl _
        · have := hs ▸ hsorted
          have hrel := (List.pairwise_cons.mp this).1 s htail
          simpa using hrel
      · unfold get_property_url
        rw [hs]

/-- Witness for C8: a single candidate with confidence 9/10 resolves to its
URL. -/
theorem get_property_url_spec_witness :
    ∃ top, top ∈ [SearchResult.mk "2 A St" "https://oneroof.co.nz/property/x" (9/10) "oneroof.co.nz"]
      ∧ (∀ s ∈ [SearchResult.mk "2 A St" "https://oneroof.co.nz/property/x" (9/10) "oneroof.co.nz"],
          s.confidence ≤ top.confidence)
      ∧ get_property_url [SearchResult.mk "2 A St" "https://oneroof.co.nz/property/x" (9/10) "oneroof.co.nz"] =
          (if 1 / 2 < top.confidence then some top.url else none) :=
  (get_property_url_spec _).2 (by simp)

/-! ## Site-specific price formatting (scraper.py, format_* functions) -/

/-- Models `format_homes_prices`: delete every `M`, parse, multiply by 1e6
(unconditionally). -/
def format_homes_prices (price : String) : Except PyErr ℚ :=
  (pyFloat (pyReplaceDel price "M")).map (· * 1000000)

/-- Models `format_qv_prices`: delete `$`, `,` and the `"QV: "` idiom, then
parse. -/
def format_qv_prices (price : String) : Except PyErr ℚ :=
  pyFloat (pyReplaceDel (pyReplaceDel (pyReplaceDel price "$") ",") "QV: ")

/-- Models `format_property_value_prices`: delete `$`, then the homes
formatting. -/
def format_property_value_prices (price : String) : Except PyErr ℚ :=
  format_homes_prices (pyReplaceDel price "$")

/-- Models `format_realestate_prices` (delegates to the propertyvalue
formatting). -/
def format_realestate_prices (price : String) : Except PyErr ℚ :=
  format_property_value_prices price

/-- Models `format_oneroof_prices` (delegates to the propertyvalue
formatting). -/
def format_oneroof_prices (price : String) : Except PyErr ℚ :=
  format_property_value_prices price

/-- Models `format_price_by_site`: dispatch on substring containment of the
site domain, falling back to the generic converter.  The fallback is
unreachable from `scrape_house_prices`, whose `site` is always a
`SELECTOR_STRATEGIES` key matching one of the five branches; it is
projected to the finite-rational price abstraction the pipeline stores
(non-finite converted values have no counterpart there). -/
def format_price_by_site (price_text site : String) : Except PyErr ℚ :=
  if strContains site "homes.co.nz" then format_homes_prices price_text
  else if strContains site "qv.co.nz" then format_qv_prices price_text
  else if strContains site "propertyvalue.co.nz" then format_property_value_prices price_text
  else if strContains site "realestate.co.nz" then format_realestate_prices price_text
  else if strContains site "oneroof.co.nz" then format_oneroof_prices price_text
  else
    match convert_to_numeric price_text with
    | .ok v =>
      match v.toRat? with
      | some q => .ok q
      | none => .error (.exception "non-finite price outside the rational abstraction")
    | .error e => .error e

/-! ## The SELECTOR_STRATEGIES table (scraper.py, module level) -/

/-- The three ordered per-price-point strategy lists of one site's entry in
`SELECTOR_STRATEGIES`. -/
structure SiteStrategies where
  midpoint : List Strategy
  upper : List Strategy
  lower : List Strategy

/-- The homes.co.nz entry of `SELECTOR_STRATEGIES`. -/
def homesStrategies : SiteStrategies :=
  ⟨[.xpath "//*[@id=\"mat-tab-content-0-0\"]/div/div[2]/div[1]/homes-hestimate-tab/div[1]/homes-price-tag-simple/div/span[2]",
    .css "[data-testid='price-estimate-main']",
    .xpath "//span[contains(@class, 'price-main')]",
    .text_pattern "Estimate.*?\\$(\\d+\\.?\\d*M?)",
    .regex_fallback "\\$\\d+\\.?\\d*M?"],
   [.xpath "//*[@id=\"mat-tab-content-0-0\"]/div/div[2]/div[1]/homes-hestimate-tab/div[2]/div/homes-price-tag-simple[2]/div/span[2]",
    .css "[data-testid='price-estimate-upper']",
    .xpath "//span[contains(@class, 'price-upper')]",
    .text_pattern "Upper.*?\\$(\\d+\\.?\\d*M?)",
    .regex_fallback "\\$\\d+\\.?\\d*M?"],
   [.xpath "//*[@id=\"mat-tab-content-0-0\"]/div/div[2]/div[1]/homes-hestimate-tab/div[2]/div/homes-price-tag-simple[1]/div/span[2]",
    .css "[data-testid='price-estimate-lower']",
    .xpath "//span[contains(@class, 'price-lower')]",
    .text_pattern "Lower.*?\\$(\\d+\\.?\\d*M?)",
    .regex_fallback "\\$\\d+\\.?\\d*M?"]⟩

/-- The qv.co.nz entry of `SELECTOR_STRATEGIES`. -/
def qvStrategies : SiteStrategies :=
  ⟨[.xpath "//*[@id=\"content\"]/div/div[1]/div[1]/div[1]/div[2]/div[1]/div[1]/div[1]/div",
    .css "[data-testid='qv-price']",
    .xpath "//div[contains(@class, 'qv-valuation')]",
    .text_pattern "QV.*?\\$(\\d+,?\\d*)",
    .regex_fallback "\\$[\\d,]+"],
   [.css "[data-testid='qv-price-upper']",
    .xpath "//div[contains(@class, 'qv-upper')]",
    .regex_fallback "\\$[\\d,]+"],
   [.css "[data-testid='qv-price-lower']",
    .xpath "//div[contains(@class, 'qv-lower')]",
    .regex_fallback "\\$[\\d,]+"]⟩

/-- The propertyvalue.co.nz entry of `SELECTOR_STRATEGIES`. -/
def propertyvalueStrategies : SiteStrategies :=
  ⟨[.css "[data-testid='pv-midpoint']",
    .css "[testid='pv-midpoint']",
    .xpath "//div[contains(@class, 'property-value-mid')]",
    .regex_fallback "\\$\\s*\\d+\\.?\\d*\\s*[Mm]"],
   [.css "[data-testid='highEstimate']",
    .css "[testid='highEstimate']",
    .xpath "//*[@id=\"PropertyOverview\"]/div/div[2]/div[4]/div[1]/div[2]/div[2]/div[2]",
    .css "[data-testid='pv-upper']",
    .css "[testid='pv-upper']",
    .xpath "//div[contains(@class, 'property-value-upper')]",
    .regex_fallback "\\$\\s*\\d+\\.?\\d*\\s*[Mm]"],
   [.css "[data-testid='lowEstimate']",
    .css "[testid='lowEstimate']",
    .xpath "//*[@id=\"PropertyOverview\"]/div/div[2]/div[4]/div[1]/div[2]/div[2]/div[1]",
    .css "[data-testid='pv-lower']",
    .css "[testid='pv-lower']",
    .xpath "//div[contains(@class, 'property-value-lower')]",
    .regex_fallback "\\$\\s*\\d+\\.?\\d*\\s*[Mm]"]⟩

/-- The realestate.co.nz entry of `SELECTOR_STRATEGIES`. -/
def realestateStrategies : SiteStrategies :=
  ⟨[.css "[data-test='reinz-valuation__price-range'] div:nth-child(2) h4",
    .xpath "//div[@data-test='reinz-valuation__price-range']/div[2]//h4",
    .css "[data-testid='reinz-price-mid']",
    .regex_fallback "\\$\\d+\\.\\d+M"],
   [.css "[data-test='reinz-valuation__price-range'] div:nth-child(3) h4",
    .xpath "//div[@data-test='reinz-valuation__price-range']/div[3]//h4",
    .css "[data-testid='reinz-price-upper']",
    .regex_fallback "\\$\\d+\\.\\d+M"],
   [.css "[data-test='reinz-valuation__price-range'] div:nth-child(1) h4",
    .xpath "//div[@data-test='reinz-valuation__price-range']/div[1]//h4",
    .css "[data-testid='reinz-price-lower']",
    .regex_fallback "\\$\\d+\\.\\d+M"]⟩

/-- The oneroof.co.nz entry of `SELECTOR_STRATEGIES`. -/
def oneroofStrategies : SiteStrategies :=
  ⟨[.css "div.text-3xl.font-bold.text-secondary.-mt-60.pb-22",
    .xpath "//div[contains(@class, 'text-3xl') and contains(@class, 'font-bold')]",
    .css "[data-testid='oneroof-midpoint']",
    .regex_fallback "\\$\\d+\\.?\\d*M?"],
   [.css "div.text-center.font-medium.absolute.top-0.pt-10.right-0 > div.text-base.md\\:text-xl",
    .xpath "//div[contains(@class, 'right-0')]//div[contains(@class, 'text-base')]",
    .css "[data-testid='oneroof-upper']",
    .regex_fallback "\\$\\d+\\.?\\d*M?"],
   [.css "div.text-center.font-medium.absolute.top-0.pt-10.left-0 > div.text-base.md\\:text-xl",
    .xpath "//div[contains(@class, 'left-0')]//div[contains(@class, 'text-base')]",
    .css "[data-testid='oneroof-lower']",
    .regex_fallback "\\$\\d+\\.?\\d*M?"]⟩

/-- The module-level `SELECTOR_STRATEGIES` dict, in insertion order (dict
iteration order is insertion order in Python 3.7+, which the site lookup in
`scrape_house_prices` relies on). -/
def SELECTOR_STRATEGIES : List (String × SiteStrategies) :=
  [("homes.co.nz", homesStrategies),
   ("qv.co.nz", qvStrategies),
   ("propertyvalue.co.nz", propertyvalueStrategies),
   ("realestate.co.nz", realestateStrategies),
   ("oneroof.co.nz", oneroofStrategies)]

/-! ## scrape_house_prices (scraper.py) -/

/-- The inner strategy loop of `scrape_house_prices` for one price type:
walks the strategy list, skipping falsy extraction results, recording a
validation-failure or conversion-exception message and moving on when a
truthy result does not survive (`validate_prices` respectively picks
`PriceValidator.validate_price` or `format_price_by_site`), and stopping
(`break`) at the first surviving result with the stored value and the
method tag `"{price_type}:{strategy type}"`.  Returns the assignment made
to `prices[price_type]` (with its method tag) and the error messages
appended, in order. -/
def tryStrategies (findall : Findall) (driver : Driver) (validate : Bool)
    (site ptype : String) : List Strategy → Option (Option ℚ × String) × List String
  | [] => (none, [])
  | st :: rest =>
    match apply_strategy findall driver st with
    | none => tryStrategies findall driver validate site ptype rest
    | some rtext =>
      if rtext.isEmpty then tryStrategies findall driver validate site ptype rest
      else if validate then
        let vr := validate_price (some rtext)
        if vr.is_valid then (some (vr.value, ptype ++ ":" ++ st.typeName), [])
        else
          let res := tryStrategies findall driver validate site ptype rest
          (res.1, (ptype ++ " validation failed: " ++ vr.error_message) :: res.2)
      else
        match format_price_by_site rtext site with
        | .ok v => (some (some v, ptype ++ ":" ++ st.typeName), [])
        | .error e =>
          let res := tryStrategies findall driver validate site ptype rest
          (res.1, (ptype ++ " extraction error: " ++ e.msg) :: res.2)

/-- One price type's outcome in `scrape_house_prices`: the stored price
(`none` when no strategy survived, in which case "All strategies failed
for {price type}" is appended), the method tags contributed, and the error
messages in order. -/
def extractPriceType (findall : Findall) (driver : Driver) (validate : Bool)
    (site ptype : String) (strategies : List Strategy) :
    Option ℚ × List String × List String :=
  match tryStrategies findall driver validate site ptype strategies with
  | (some (v, m), errs) => (v, [m], errs)
  | (none, errs) => (none, [], errs ++ ["All strategies failed for " ++ ptype])

/-- The body of `scrape_house_prices` after the site has been determined:
extract midpoint, upper and lower in that order, apply the
propertyvalue.co.nz special case (midpoint forced to `None` and its method
tags removed, for external calculation in update_sheets.py), then the
price-relationship validation.  Returns (prices, method tags, errors). -/
def scrapeCore (findall : Findall) (driver : Driver) (validate : Bool)
    (site : String) (ss : SiteStrategies) : Prices × List String × List String :=
  let mid := extractPriceType findall driver validate site "midpoint" ss.midpoint
  let up := extractPriceType findall driver validate site "upper" ss.upper
  let lo := extractPriceType findall driver validate site "lower" ss.lower
  let methods0 := mid.2.1 ++ up.2.1 ++ lo.2.1
  let errors0 := mid.2.2 ++ up.2.2 ++ lo.2.2
  let midv := if site = "propertyvalue.co.nz" then none else mid.1
  let methods :=
    if site = "propertyvalue.co.nz" then
      methods0.filter (fun m => !(String.startsWith m "midpoint:"))
    else methods0
  let prices : Prices := ⟨lo.1, midv, up.1⟩
  let errors :=
    if validate = true
        ∧ 2 ≤ ([prices.lower, prices.midpoint, prices.upper].filterMap id).length
        ∧ validate_price_relationships prices.lower prices.midpoint prices.upper = false
    then errors0 ++ ["Price relationships are invalid (lower > midpoint > upper)"]
    else errors0
  (prices, methods, errors)

/-- The site key `scrape_house_prices` selects for a URL: the first key of
`SELECTOR_STRATEGIES` (in insertion order) contained in the URL. -/
def siteFor (url : String) : Option String :=
  (SELECTOR_STRATEGIES.find? (fun p => strContains url p.1)).map Prod.fst

/-- The extraction-method tag list of a scrape (whose comma-join is the
`extraction_method` field). -/
def scrapeMethods (findall : Findall) (driver : Driver) (url : String)
    (validate : Bool) : List String :=
  match SELECTOR_STRATEGIES.find? (fun p => strContains url p.1) with
  | none => []
  | some p => (scrapeCore findall driver validate p.1 p.2).2.1

/-- Models `scrape_house_prices(driver, url, validate_prices,
enable_logging)`: navigation and logging are side effects without influence
on the returned record; `execution_time` is not modelled.  An unknown URL
yields the failure record; otherwise the strategy table drives extraction
and `success = any(prices.values())` (Python truthiness: a stored 0.0
counts as false). -/
def scrape_house_prices (findall : Findall) (driver : Driver) (url : String)
    (validate : Bool) : ScrapingResult :=
  match SELECTOR_STRATEGIES.find? (fun p => strContains url p.1) with
  | none =>
    ⟨"unknown", url, false, ⟨none, none, none⟩,
      ["No selector strategies found for URL: " ++ url], "none"⟩
  | some p =>
    let core := scrapeCore findall driver validate p.1 p.2
    ⟨p.1, url,
      pyTruthyQ core.1.midpoint || pyTruthyQ core.1.upper || pyTruthyQ core.1.lower,
      core.1, core.2.2, String.intercalate "," core.2.1⟩

theorem tryStrategies_value_isSome (findall : Findall) (driver : Driver)
    (validate : Bool) (site ptype : String) :
    ∀ (sts : List Strategy) (v : Option ℚ) (m : String),
      (tryStrategies findall driver validate site ptype sts).1 = some (v, m) →
      ∃ q, v = some q := by
  intro sts
  induction sts with
  | nil => intro v m h; simp [tryStrategies] at h
  | cons st rest ih =>
    intro v m h
    simp only [tryStrategies] at h
    cases happ : apply_strategy findall driver st with
    | none =>
      simp only [happ] at h
      exact ih v m h
    | some rtext =>
      simp only [happ] at h
      by_cases he : rtext.isEmpty
      · rw [if_pos he] at h
        exact ih v m h
      · rw [if_neg he] at h
        by_cases hval : validate = true
        · rw [if_pos hval] at h
          by_cases hvr : (validate_price (some rtext)).is_valid
          · rw [if_pos hvr] at h
            obtain ⟨q, hq, _, _⟩ := validate_price_valid_range (some rtext) hvr
            simp only [Option.some.injEq, Prod.mk.injEq] at h
            exact ⟨q, by rw [← h.1, hq]⟩
          · rw [if_neg hvr] at h
            exact ih v m h
        · rw [if_neg hval] at h
          cases hfmt : format_price_by_site rtext site with
          | ok q =>
            rw [hfmt] at h
            simp only [Option.some.injEq, Prod.mk.injEq] at h
            exact ⟨q, h.1.symm⟩
          | error e =>
            rw [hfmt] at h
            exact ih v m h

theorem extractPriceType_none_err (findall : Findall) (driver : Driver)
    (validate : Bool) (site ptype : String) (strategies : List Strategy) :
    (extractPriceType findall driver validate site ptype strategies).1 = none →
    (extractPriceType findall driver validate site ptype strategies).2.2 ≠ [] := by
  unfold extractPriceType
  cases htry : tryStrategies findall driver validate site ptype strategies with
  | mk fst snd =>
    cases fst with
    | none =>
      intro _
      simp
    | some vm =>
      obtain ⟨v1, m1⟩ := vm
      intro h
      obtain ⟨q, hq⟩ := tryStrategies_value_isSome findall driver validate site ptype
        strategies v1 m1 (by rw [htry])
      have h2 : v1 = none := h
      rw [hq] at h2
      simp at h2

theorem scrapeCore_lower_none_errors (findall : Findall) (driver : Driver)
    (validate : Bool) (site : String) (ss : SiteStrategies)
    (hl : (scrapeCore findall driver validate site ss).1.lower = none) :
    (scrapeCore findall driver validate site ss).2.2 ≠ [] := by
  have herr := extractPriceType_none_err findall driver validate site "lower" ss.lower hl
  intro hn
  simp only [scrapeCore] at hn
  split at hn
  all_goals try split at hn
  all_goals simp only [List.append_assoc, List.append_eq_nil, List.cons_ne_nil,
    and_false, false_and] at hn
  all_goals exact herr hn.2.2

theorem pyTruthyQ_iff (x : Option ℚ) :
    pyTruthyQ x = true ↔ ∃ q, q ≠ 0 ∧ x = some q := by
  cases x with
  | none => simp [pyTruthyQ]
  | some v =>
    simp only [pyTruthyQ, bne_iff_ne, ne_eq, Option.some.injEq]
    constructor
    · intro h
      exact ⟨v, h, rfl⟩
    · rintro ⟨q, hq, rfl⟩
      exact hq

theorem truthy3_iff (a b c : Option ℚ) :
    (pyTruthyQ a || pyTruthyQ b || pyTruthyQ c) = true ↔
      ∃ q, q ≠ 0 ∧ (c = some q ∨ a = some q ∨ b = some q) := by
  simp only [Bool.or_eq_true, pyTruthyQ_iff]
  constructor
  · rintro ((⟨q, hq, rfl⟩ | ⟨q, hq, rfl⟩) | ⟨q, hq, rfl⟩)
    · exact ⟨q, hq, Or.inr (Or.inl rfl)⟩
    · exact ⟨q, hq, Or.inr (Or.inr rfl)⟩
    · exact ⟨q, hq, Or.inl rfl⟩
  · rintro ⟨q, hq, (rfl | rfl | rfl)⟩
    · exact Or.inr ⟨q, hq, rfl⟩
    · exact Or.inl (Or.inl ⟨q, hq, rfl⟩)
    · exact Or.inl (Or.inr ⟨q, hq, rfl⟩)

/-- C6 (amended) counterexample to the claim as stated: on a homes.co.nz
page whose first selector yields the text "0", the midpoint price-point is
extracted (stored value 0, method tags recorded for all three
price-points), yet `success = any(prices.values())` is false because Python
treats 0.0 as falsy. -/
theorem scrape_success_zero_counterexample :
    (scrape_house_prices emptyFindall (constDriver "0" "") "https://homes.co.nz/x" false).prices.midpoint
        = some 0
    ∧ (scrape_house_prices emptyFindall (constDriver "0" "") "https://homes.co.nz/x" false).extraction_method
        = "midpoint:xpath,upper:xpath,lower:xpath"
    ∧ (scrape_house_prices emptyFindall (constDriver "0" "") "https://homes.co.nz/x" false).success
        = false :=
  ⟨by decide, by decide, by decide⟩

/-- C6 as amended: a scrape with all three price-points empty has
`success = false` and a non-empty error list; and `success = true` holds
exactly when some price-point carries a non-zero value (Python truthiness:
an extracted value of 0.0 does not count, which is the one deviation from
the claim as stated). -/
theorem scrape_success_characterization (findall : Findall) (driver : Driver)
    (url : String) (validate : Bool) :
    ((scrape_house_prices findall driver url validate).prices.lower = none →
      (scrape_house_prices findall driver url validate).prices.midpoint = none →
      (scrape_house_prices findall driver url validate).prices.upper = none →
      (scrape_house_prices findall driver url validate).success = false
        ∧ (scrape_house_prices findall driver url validate).errors ≠ [])
    ∧ ((scrape_house_prices findall driver url validate).success = true ↔
        ∃ q, q ≠ 0
          ∧ ((scrape_house_prices findall driver url validate).prices.lower = some q
            ∨ (scrape_house_prices findall driver url validate).prices.midpoint = some q
            ∨ (scrape_house_prices findall driver url validate).prices.upper = some q)) := by
  cases hf : SELECTOR_STRATEGIES.find? (fun p => strContains url p.1) with
  | none =>
    constructor
    · intro _ _ _
      unfold scrape_house_prices
      rw [hf]
      exact ⟨rfl, by simp⟩
    · unfold scrape_house_prices
      rw [hf]
      simp
  | some p =>
    have hprices : (scrape_house_prices findall driver url validate).prices =
        (scrapeCore findall driver validate p.1 p.2).1 := by
      unfold scrape_house_prices
      rw [hf]
    have hsucc : (scrape_house_prices findall driver url validate).success =
        (pyTruthyQ (scrape_house_prices findall driver url validate).prices.midpoint
          || pyTruthyQ (scrape_house_prices findall driver url validate).prices.upper
          || pyTruthyQ (scrape_house_prices findall driver url validate).prices.lower) := by
      unfold scrape_house_prices
      rw [hf]
    have herrs : (scrape_house_prices findall driver url validate).errors =
        (scrapeCore findall driver validate p.1 p.2).2.2 := by
      unfold scrape_house_prices
      rw [hf]
    constructor
    · intro hl hm hu
      constructor
      · rw [hsucc, hl, hm, hu]
        rfl
      · rw [herrs]
        apply scrapeCore_lower_none_errors
        rw [← hprices]
        exact hl
    · rw [hsucc]
      exact truthy3_iff _ _ _

/-- Witness for C6 (amended): a fully-failing driver gives success = false
with a populated error list, and a driver yielding "1.5M" on homes.co.nz
gives a non-zero midpoint hence success = true. -/
theorem scrape_success_characterization_witness :
    ((scrape_house_prices emptyFindall (failDriver "") "https://homes.co.nz/x" false).success = false
      ∧ (scrape_house_prices emptyFindall (failDriver "") "https://homes.co.nz/x" false).errors ≠ [])
    ∧ (scrape_house_prices emptyFindall (constDriver "1.5M" "") "https://homes.co.nz/x" false).success
        = true :=
  ⟨(scrape_success_characterization emptyFindall (failDriver "") "https://homes.co.nz/x" false).1
      (by decide) (by decide) (by decide),
   (scrape_success_characterization emptyFindall (constDriver "1.5M" "") "https://homes.co.nz/x" false).2.mpr
      ⟨1500000, by norm_num, Or.inr (Or.inl (by decide))⟩⟩

/-- C10: for every scrape whose URL resolves to propertyvalue.co.nz, the
returned prices have `midpoint = None` and the extraction-method trace
contains no `midpoint:` entries — even when a midpoint was successfully
extracted and stored during the strategy loop, it is unconditionally
discarded for external calculation. -/
theorem pv_scrape_midpoint_discarded (findall : Findall) (driver : Driver)
    (url : String) (validate : Bool)
    (h : siteFor url = some "propertyvalue.co.nz") :
    (scrape_house_prices findall driver url validate).prices.midpoint = none
    ∧ (∀ m ∈ scrapeMethods findall driver url validate,
        String.startsWith m "midpoint:" = false)
    ∧ (scrape_house_prices findall driver url validate).extraction_method =
        String.intercalate "," (scrapeMethods findall driver url validate) := by
  unfold siteFor at h
  cases hf : SELECTOR_STRATEGIES.find? (fun p => strContains url p.1) with
  | none => rw [hf] at h; simp at h
  | some p =>
    rw [hf] at h
    simp only [Option.map_some', Option.some.injEq] at h
    have hmid : (scrapeCore findall driver validate p.1 p.2).1.midpoint = none := by
      simp [scrapeCore, h]
    have hmeth : ∀ m ∈ (scrapeCore findall driver validate p.1 p.2).2.1,
        String.startsWith m "midpoint:" = false := by
      intro m hm
      simp only [scrapeCore, h, if_pos] at hm
      rw [List.mem_filter] at hm
      simpa using hm.2
    refine ⟨?_, ?_, ?_⟩
    · unfold scrape_house_prices
      rw [hf]
      exact hmid
    · unfold scrapeMethods
      rw [hf]
      exact hmeth
    · unfold scrape_house_prices scrapeMethods
      rw [hf]

/-- Witness for C10: a propertyvalue.co.nz page whose selectors all yield
"$1.2M" (so a midpoint is extracted and then discarded) still reports
`midpoint = None` and no midpoint method tags. -/
theorem pv_scrape_midpoint_discarded_witness :
    (scrape_house_prices emptyFindall (constDriver "$1.2M" "")
        "https://www.propertyvalue.co.nz/a" false).prices.midpoint = none
    ∧ ∀ m ∈ scrapeMethods emptyFindall (constDriver "$1.2M" "")
        "https://www.propertyvalue.co.nz/a" false,
        String.startsWith m "midpoint:" = false :=
  ⟨(pv_scrape_midpoint_discarded emptyFindall (constDriver "$1.2M" "")
      "https://www.propertyvalue.co.nz/a" false (by decide)).1,
   (pv_scrape_midpoint_discarded emptyFindall (constDriver "$1.2M" "")
      "https://www.propertyvalue.co.nz/a" false (by decide)).2.1⟩

end HPS
